import Mathlib

/-!
Shallow embedding of `examples/experience_demo/encoder_decoder_text.py`
(two-stage encode/recall experience pipeline for an RL training loop)
and proofs about its reward scorer, trajectory reconstruction, batch
merging, stats merging, secret sampling and stage-2 prompt composition.

Python strings are modelled as Lean `String` (ASCII semantics for
`str.isdigit`), Python runtime errors as an explicit `PyError` sum, and
fallible fragments as `Except PyError`.  Heterogeneous Python lists such
as a trajectory `[digit, prompt_1, output_1, prompt_2, output_2]` are
modelled as lists of a tagged entry type.
-/

namespace EncoderDecoderText

/-- Python runtime errors that the embedded fragments can raise. -/
inductive PyError where
  | assertionError
  | typeError
  | indexError
  | keyError
deriving DecidableEq, Repr

/-- One entry of a heterogeneous Python list: either an int or a str. -/
inductive TrajEntry where
  | intEntry (n : Int)
  | strEntry (s : String)
deriving DecidableEq, Repr

/-- A trajectory is a Python list of entries (the source builds
`[digits[i], first_run_str_prompts[i], first_run_str_outputs[i],
second_run_str_prompts[i], second_run_str_outputs[i]]`). -/
abbrev Trajectory := List TrajEntry

/-- Indexing a Python sequence: `none` becomes an `IndexError`. -/
def liftIdx {α : Type} : Option α → Except PyError α
  | some a => .ok a
  | none => .error .indexError

/-- Left-to-right effectful map over a list; the first raised error
propagates, as in a Python loop / `map`. -/
def mapExcept {α β : Type} (f : α → Except PyError β) : List α → Except PyError (List β)
  | [] => .ok []
  | x :: xs => do
    let y ← f x
    let ys ← mapExcept f xs
    .ok (y :: ys)

/-- The source's `get_last_digit(sample)`:
`last_word = sample[-1]` (the LAST CHARACTER of the string; raises
`IndexError` on the empty string), then `int(last_word)` if
`last_word.isdigit()` else `-1`. -/
def get_last_digit (sample : String) : Except PyError Int :=
  match sample.toList.getLast? with
  | none => .error .indexError
  | some c => if c.isDigit then .ok ((c.toNat : Int) - 48) else .ok (-1)

/-- The `assert len(sample) == 3` loop at the top of `reward_fn`:
raises `AssertionError` at the first sample whose length is not 3. -/
def checkLen3 : List Trajectory → Except PyError Unit
  | [] => .ok ()
  | s :: rest => if s.length = 3 then checkLen3 rest else .error .assertionError

/-- Subscripting `sample[-1]` is only meaningful on a string entry; applying string
operations to an int raises `TypeError`. -/
def entryStr : TrajEntry → Except PyError String
  | .strEntry s => .ok s
  | .intEntry _ => .error .typeError

/-- Python `digit == reconstructed_digit` where `digit` is a trajectory
entry: an int compares by value, a str is never equal to an int. -/
def entryEqInt : TrajEntry → Int → Bool
  | .intEntry n, d => n == d
  | .strEntry _, _ => false

/-- The source's `reward_fn(trajectories)`.  It first runs
`assert len(sample) == 3` over every sample, then maps `get_last_digit`
over column 2 (`trajectories[:, 2]`) and compares column 0 against the
reconstructed digits.  (On a plain Python list the expression
`trajectories[:, 2]` itself raises `TypeError`; the column read is
modelled as the numpy-style column extraction the comprehension
intends, so that the scoring path past the assertion can be analysed.) -/
def reward_fn (trajectories : List Trajectory) : Except PyError (List Int) := do
  checkLen3 trajectories
  let col2 ← mapExcept (fun s => liftIdx (s.get? 2)) trajectories
  let reconstructed ← mapExcept (fun e => do get_last_digit (← entryStr e)) col2
  let col0 ← mapExcept (fun s => liftIdx (s.get? 0)) trajectories
  .ok (List.zipWith (fun d r => if entryEqInt d r then (1 : Int) else 0) col0 reconstructed)

/-- A Python loop `for i in range(count): acc.append(f(i))` where the
body may raise: iterations run in order `0, 1, …` and the first raised
error propagates. -/
def pyLoop {α : Type} (f : Nat → Except PyError α) : Nat → Except PyError (List α)
  | 0 => .ok []
  | n + 1 => do
    let pre ← pyLoop f n
    let last ← f n
    .ok (pre ++ [last])

/-- The body of the trajectory-building loop:
`[digits[i], first_run_str_prompts[i], first_run_str_outputs[i],
second_run_str_prompts[i], second_run_str_outputs[i]]`, where every
Python subscript raises `IndexError` when out of range. -/
def trajAt (digits : List Int) (p1 o1 p2 o2 : List String) (i : Nat) :
    Except PyError Trajectory := do
  let d ← liftIdx (digits.get? i)
  let a ← liftIdx (p1.get? i)
  let b ← liftIdx (o1.get? i)
  let c ← liftIdx (p2.get? i)
  let e ← liftIdx (o2.get? i)
  .ok [TrajEntry.intEntry d, TrajEntry.strEntry a, TrajEntry.strEntry b,
       TrajEntry.strEntry c, TrajEntry.strEntry e]

/-- The trajectory reconstruction loop of
`encoder_decoder_experience_fn`:
`for i in range(batch_size): trajectories.append([...])`. -/
def reconstructTrajectories (n : Nat) (digits : List Int) (p1 o1 p2 o2 : List String) :
    Except PyError (List Trajectory) :=
  pyLoop (trajAt digits p1 o1 p2 o2) n

/-- A statistics mapping, a Python dict in insertion order with numeric
values (modelled as integers). -/
abbrev StatsMap := List (String × Int)

/-- Python `b[k]`: raises `KeyError` when the key is absent. -/
def statsLookup (b : StatsMap) (k : String) : Except PyError Int :=
  match b.lookup k with
  | some v => .ok v
  | none => .error .keyError

/-- The source's stats merge,
`stats = {k: first_run_stats[k] + second_run_stats[k] for k in first_run_stats}`:
iterates the FIRST map's keys in order, looks each up
in the second map (raising `KeyError` if absent) and sums the values. -/
def mergeStats : StatsMap → StatsMap → Except PyError StatsMap
  | [], _ => .ok []
  | kv :: rest, b => do
    let w ← statsLookup b kv.1
    let tail ← mergeStats rest b
    .ok ((kv.1, kv.2 + w) :: tail)

/-- The stage-1 template,
`fact_strs[i] = f"Fact: x = {digits[i]}\nContinue the poem:\n\n"`. -/
def fact_str (d : Int) : String :=
  "Fact: x = " ++ toString d ++ "\nContinue the poem:\n\n"

/-- The source's
`recall_str = f"\nRecall fact: x is either 0 or 1.\nAnswer: x ="`. -/
def recall_str : String :=
  "\nRecall fact: x is either 0 or 1.\nAnswer: x ="

/-- One element of the stage-2 composition loop:
`second_run_strs[i] = str_prompts[i] + "\nThe" + first_run_str_outputs[i] + recall_str`. -/
def compose_stage2 (str_prompt first_out : String) : String :=
  str_prompt ++ "\nThe" ++ first_out ++ recall_str

/-- The text the fixed stage-2 template contributes on its own, i.e.
the composed stage-2 prompt with an empty base prompt and an empty
stage-1 output. -/
def stage2TemplatePart : String :=
  "\nThe" ++ recall_str

/-- The stage-2 composition loop over the whole batch.  `digits` is in
scope at this point of the source function but the loop body never
reads it; the parameter records its availability so that independence
from the sampled secrets is a statable property. -/
def second_run_strs (digits : List Int) (str_prompts first_outs : List String) (n : Nat) :
    Except PyError (List String) :=
  pyLoop (fun i => do
    let p ← liftIdx (str_prompts.get? i)
    let o ← liftIdx (first_outs.get? i)
    .ok (compose_stage2 p o)) n

/-- Modelled from the spec: `np.random.seed` / the state of numpy's
global PRNG are external-library code not under `src/`; the spec
requires a seedable deterministic random source, modelled as a pure
linear-congruential state. -/
structure RNGState where
  val : Nat
deriving DecidableEq, Repr

/-- Modelled from the spec: seeding the random source
(`np.random.seed(s)`) puts it in a state determined by the seed alone. -/
def npSeed (s : Nat) : RNGState := ⟨s % 2147483647⟩

/-- Modelled from the spec: one raw draw from the seeded source,
returning the value and the advanced state. -/
def npNext (g : RNGState) : Nat × RNGState :=
  let v := (g.val * 48271 + 12345) % 2147483647
  (v, ⟨v⟩)

/-- Modelled from the spec: `np.random.randint(lo, hi, n)` draws `n`
integers, each the next raw draw reduced into the half-open range
`[lo, hi)` (so `randint(0, 2, n)` draws from the alphabet `{0, 1}`). -/
def npRandint (lo hi : Nat) : Nat → RNGState → List Nat × RNGState
  | 0, g => ([], g)
  | m + 1, g =>
    ((lo + (npNext g).1 % (hi - lo)) :: (npRandint lo hi m (npNext g).2).1,
     (npRandint lo hi m (npNext g).2).2)

/-- The Secret Sampler invoked under seed `s`:
`digits = list(np.random.randint(0, 2, batch_size))` after
`np.random.seed(s)`. -/
def sampleSecrets (s n : Nat) : List Nat :=
  (npRandint 0 2 n (npSeed s)).1

/-- Modelled from the spec: `RunElementBatch` lives in
`trlx/data/ppo_types.py`, which is not under `src/`; per the source's
docstring it bundles per-element fields `samples`, `all_logprobs`,
`all_ref_logprobs`, `query_tensors`, `response_tensors`, `all_values`. -/
structure RunElementBatch (α : Type) where
  samples : List α
  all_logprobs : List α
  all_ref_logprobs : List α
  query_tensors : List α
  response_tensors : List α
  all_values : List α

/-- Modelled from the spec: `RunElementBatch.__add__` (the Batch
Merger, `data = first_run_data + second_run_data` in the source) is not
under `src/`; per the spec it concatenates every per-element field,
stage-1 elements first. -/
def addRunElementBatch {α : Type} (a b : RunElementBatch α) : RunElementBatch α :=
  ⟨a.samples ++ b.samples,
   a.all_logprobs ++ b.all_logprobs,
   a.all_ref_logprobs ++ b.all_ref_logprobs,
   a.query_tensors ++ b.query_tensors,
   a.response_tensors ++ b.response_tensors,
   a.all_values ++ b.all_values⟩

/-- C1: the reward scorer, handed one well-formed five-field trajectory
`[1, "p1", "poem", "p2", "Answer: x = 1"]` whose final field recalls the
secret, raises `AssertionError` (`assert len(sample) == 3` fails on the
documented five-field form) instead of returning reward 1. -/
theorem reward_fn_asserts_on_five_fields :
    reward_fn [[TrajEntry.intEntry 1, TrajEntry.strEntry "p1", TrajEntry.strEntry "poem",
                TrajEntry.strEntry "p2", TrajEntry.strEntry "Answer: x = 1"]] =
      .error PyError.assertionError := by
  rfl

/-- C2: the reward scorer raises instead of scoring malformed output as
0: even on a three-field sample (which passes the length assertion) with
an empty final output, `get_last_digit` evaluates `sample[-1]` on the
empty string and raises `IndexError`. -/
theorem reward_fn_raises_on_empty_output :
    reward_fn [[TrajEntry.intEntry 1, TrajEntry.strEntry "p", TrajEntry.strEntry ""]] =
      .error PyError.indexError := by
  rfl

lemma get?_eq_some_getD {α : Type} (l : List α) (i : Nat) (d : α) (h : i < l.length) :
    l.get? i = some (l.getD i d) := by
  induction l generalizing i with
  | nil => simp at h
  | cons a t ih =>
    cases i with
    | zero => rfl
    | succ j => simpa [List.getD] using ih j (Nat.lt_of_succ_lt_succ h)

lemma pyLoop_ok_of {α : Type} (f : Nat → Except PyError α) (g : Nat → α) :
    ∀ n : Nat, (∀ i, i < n → f i = .ok (g i)) →
      pyLoop f n = .ok ((List.range n).map g)
  | 0, _ => rfl
  | n + 1, h => by
    have hpre := pyLoop_ok_of f g n (fun i hi => h i (Nat.lt_succ_of_lt hi))
    have hn := h n (Nat.lt_succ_self n)
    simp only [pyLoop, hpre, hn, List.range_succ, List.map_append, List.map_cons,
      List.map_nil]
    rfl

lemma pyLoop_exists_ok {α : Type} (f : Nat → Except PyError α) :
    ∀ n : Nat, (∀ i, i < n → ∃ b, f i = .ok b) →
      ∃ l, pyLoop f n = .ok l ∧ l.length = n
  | 0, _ => ⟨[], rfl, rfl⟩
  | n + 1, h => by
    obtain ⟨L, hL, hlen⟩ := pyLoop_exists_ok f n (fun i hi => h i (Nat.lt_succ_of_lt hi))
    obtain ⟨b, hb⟩ := h n (Nat.lt_succ_self n)
    exact ⟨L ++ [b], by simp only [pyLoop, hL, hb]; rfl, by simp [hlen]⟩

lemma pyLoop_err {α : Type} (f : Nat → Except PyError α) :
    ∀ n : Nat, (∀ i, i < n → f i = .error .indexError ∨ ∃ b, f i = .ok b) →
      (∃ i, i < n ∧ f i = .error .indexError) →
      pyLoop f n = .error .indexError
  | 0, _, hex => absurd hex.choose_spec.1 (Nat.not_lt_zero _)
  | n + 1, h, hex => by
    by_cases hpre : ∃ i, i < n ∧ f i = .error .indexError
    · have := pyLoop_err f n (fun i hi => h i (Nat.lt_succ_of_lt hi)) hpre
      simp only [pyLoop, this]
      rfl
    · have hok : ∀ i, i < n → ∃ b, f i = .ok b := by
        intro i hi
        rcases h i (Nat.lt_succ_of_lt hi) with herr | hb
        · exact absurd ⟨i, hi, herr⟩ hpre
        · exact hb
      obtain ⟨L, hL, _⟩ := pyLoop_exists_ok f n hok
      obtain ⟨i, hi, herr⟩ := hex
      have hieq : i = n := by
        rcases Nat.lt_succ_iff_lt_or_eq.mp hi with hlt | heq
        · exact absurd ⟨i, hlt, herr⟩ hpre
        · exact heq
      subst hieq
      simp only [pyLoop, hL, herr]
      rfl

lemma trajAt_ok (digits : List Int) (p1 o1 p2 o2 : List String) (i : Nat)
    (hd : i < digits.length) (h1 : i < p1.length) (h2 : i < o1.length)
    (h3 : i < p2.length) (h4 : i < o2.length) :
    trajAt digits p1 o1 p2 o2 i =
      .ok [TrajEntry.intEntry (digits.getD i 0), TrajEntry.strEntry (p1.getD i ""),
           TrajEntry.strEntry (o1.getD i ""), TrajEntry.strEntry (p2.getD i ""),
           TrajEntry.strEntry (o2.getD i "")] := by
  unfold trajAt
  rw [get?_eq_some_getD digits i 0 hd, get?_eq_some_getD p1 i "" h1,
      get?_eq_some_getD o1 i "" h2, get?_eq_some_getD p2 i "" h3,
      get?_eq_some_getD o2 i "" h4]
  rfl

lemma trajAt_err (digits : List Int) (p1 o1 p2 o2 : List String) (i : Nat)
    (h : ¬(i < digits.length ∧ i < p1.length ∧ i < o1.length ∧ i < p2.length ∧ i < o2.length)) :
    trajAt digits p1 o1 p2 o2 i = .error PyError.indexError := by
  by_cases hd : i < digits.length
  · by_cases h1 : i < p1.length
    · by_cases h2 : i < o1.length
      · by_cases h3 : i < p2.length
        · by_cases h4 : i < o2.length
          · exact absurd ⟨hd, h1, h2, h3, h4⟩ h
          · unfold trajAt
            rw [get?_eq_some_getD digits i 0 hd, get?_eq_some_getD p1 i "" h1,
                get?_eq_some_getD o1 i "" h2, get?_eq_some_getD p2 i "" h3,
                List.get?_eq_none.mpr (Nat.le_of_not_lt h4)]
            rfl
        · unfold trajAt
          rw [get?_eq_some_getD digits i 0 hd, get?_eq_some_getD p1 i "" h1,
              get?_eq_some_getD o1 i "" h2, List.get?_eq_none.mpr (Nat.le_of_not_lt h3)]
          rfl
      · unfold trajAt
        rw [get?_eq_some_getD digits i 0 hd, get?_eq_some_getD p1 i "" h1,
            List.get?_eq_none.mpr (Nat.le_of_not_lt h2)]
        rfl
    · unfold trajAt
      rw [get?_eq_some_getD digits i 0 hd, List.get?_eq_none.mpr (Nat.le_of_not_lt h1)]
      rfl
  · unfold trajAt
    rw [List.get?_eq_none.mpr (Nat.le_of_not_lt hd)]
    rfl

lemma trajAt_ok_or_err (digits : List Int) (p1 o1 p2 o2 : List String) (i : Nat) :
    trajAt digits p1 o1 p2 o2 i = .error PyError.indexError ∨
      ∃ b, trajAt digits p1 o1 p2 o2 i = .ok b := by
  by_cases hall : i < digits.length ∧ i < p1.length ∧ i < o1.length ∧ i < p2.length ∧ i < o2.length
  · obtain ⟨hd, h1, h2, h3, h4⟩ := hall
    exact Or.inr ⟨_, trajAt_ok digits p1 o1 p2 o2 i hd h1 h2 h3 h4⟩
  · exact Or.inl (trajAt_err digits p1 o1 p2 o2 i hall)

/-- C3: when the five per-element input sequences all have length `n`,
the trajectory reconstruction loop returns exactly the `n` records
`[secret_i, stage1_prompt_i, stage1_output_i, stage2_prompt_i,
stage2_output_i]` (five fields in this fixed order for every element,
regardless of string content), and the output list has length `n`. -/
theorem reconstructTrajectories_shape (n : Nat) (digits : List Int)
    (p1 o1 p2 o2 : List String) (hd : digits.length = n) (h1 : p1.length = n)
    (h2 : o1.length = n) (h3 : p2.length = n) (h4 : o2.length = n) :
    reconstructTrajectories n digits p1 o1 p2 o2 =
      .ok ((List.range n).map (fun i =>
        [TrajEntry.intEntry (digits.getD i 0), TrajEntry.strEntry (p1.getD i ""),
         TrajEntry.strEntry (o1.getD i ""), TrajEntry.strEntry (p2.getD i ""),
         TrajEntry.strEntry (o2.getD i "")])) ∧
    ((List.range n).map (fun i =>
        [TrajEntry.intEntry (digits.getD i 0), TrajEntry.strEntry (p1.getD i ""),
         TrajEntry.strEntry (o1.getD i ""), TrajEntry.strEntry (p2.getD i ""),
         TrajEntry.strEntry (o2.getD i "")])).length = n := by
  constructor
  · apply pyLoop_ok_of
    intro i hi
    exact trajAt_ok digits p1 o1 p2 o2 i (hd ▸ hi) (h1 ▸ hi) (h2 ▸ hi) (h3 ▸ hi) (h4 ▸ hi)
  · simp

/-- Witness for C3 on a concrete batch of size 2. -/
theorem reconstructTrajectories_shape_witness :
    reconstructTrajectories 2 [0, 1] ["a", "b"] ["c", "d"] ["e", "f"] ["g", "h"] =
      .ok [[TrajEntry.intEntry 0, TrajEntry.strEntry "a", TrajEntry.strEntry "c",
            TrajEntry.strEntry "e", TrajEntry.strEntry "g"],
           [TrajEntry.intEntry 1, TrajEntry.strEntry "b", TrajEntry.strEntry "d",
            TrajEntry.strEntry "f", TrajEntry.strEntry "h"]] := by
  have h := (reconstructTrajectories_shape 2 [0, 1] ["a", "b"] ["c", "d"] ["e", "f"]
    ["g", "h"] rfl rfl rfl rfl rfl).1
  exact h.trans (by rfl)

/-- C4 counterexample: with mismatched input lengths (the stage-1
prompt list has 3 elements while the batch and all other lists have 2)
the reconstruction loop does NOT fail — it returns 2 trajectories,
silently ignoring the extra element. -/
theorem reconstruct_truncates_counterexample :
    (["a", "b", "c"] : List String).length ≠ ([0, 1] : List Int).length ∧
    reconstructTrajectories 2 [0, 1] ["a", "b", "c"] ["x", "y"] ["p", "q"] ["u", "v"] =
      .ok [[TrajEntry.intEntry 0, TrajEntry.strEntry "a", TrajEntry.strEntry "x",
            TrajEntry.strEntry "p", TrajEntry.strEntry "u"],
           [TrajEntry.intEntry 1, TrajEntry.strEntry "b", TrajEntry.strEntry "y",
            TrajEntry.strEntry "q", TrajEntry.strEntry "v"]] :=
  ⟨by decide, rfl⟩

/-- C4 as amended: the loop indexes each sequence at `0 … n-1`, so it
succeeds (with exactly `n` records) precisely when every sequence has
length at least `n` — sequences LONGER than the batch are silently
truncated — and when some sequence is shorter than `n` it raises
`IndexError` (there is no `ShapeMismatch` check). -/
theorem reconstructTrajectories_amended (n : Nat) (digits : List Int)
    (p1 o1 p2 o2 : List String) :
    (n ≤ digits.length ∧ n ≤ p1.length ∧ n ≤ o1.length ∧ n ≤ p2.length ∧ n ≤ o2.length →
      ∃ l, reconstructTrajectories n digits p1 o1 p2 o2 = .ok l ∧ l.length = n) ∧
    (¬(n ≤ digits.length ∧ n ≤ p1.length ∧ n ≤ o1.length ∧ n ≤ p2.length ∧ n ≤ o2.length) →
      reconstructTrajectories n digits p1 o1 p2 o2 = .error PyError.indexError) := by
  constructor
  · rintro ⟨hd, h1, h2, h3, h4⟩
    apply pyLoop_exists_ok
    intro i hi
    exact ⟨_, trajAt_ok digits p1 o1 p2 o2 i (Nat.lt_of_lt_of_le hi hd)
      (Nat.lt_of_lt_of_le hi h1) (Nat.lt_of_lt_of_le hi h2)
      (Nat.lt_of_lt_of_le hi h3) (Nat.lt_of_lt_of_le hi h4)⟩
  · intro h
    apply pyLoop_err _ n (fun i _ => trajAt_ok_or_err digits p1 o1 p2 o2 i)
    by_cases hd : n ≤ digits.length
    · by_cases h1 : n ≤ p1.length
      · by_cases h2 : n ≤ o1.length
        · by_cases h3 : n ≤ p2.length
          · by_cases h4 : n ≤ o2.length
            · exact absurd ⟨hd, h1, h2, h3, h4⟩ h
            · exact ⟨o2.length, Nat.lt_of_not_le h4,
                trajAt_err digits p1 o1 p2 o2 _ (fun hc => Nat.lt_irrefl _ hc.2.2.2.2)⟩
          · exact ⟨p2.length, Nat.lt_of_not_le h3,
              trajAt_err digits p1 o1 p2 o2 _ (fun hc => Nat.lt_irrefl _ hc.2.2.2.1)⟩
        · exact ⟨o1.length, Nat.lt_of_not_le h2,
            trajAt_err digits p1 o1 p2 o2 _ (fun hc => Nat.lt_irrefl _ hc.2.2.1)⟩
      · exact ⟨p1.length, Nat.lt_of_not_le h1,
          trajAt_err digits p1 o1 p2 o2 _ (fun hc => Nat.lt_irrefl _ hc.2.1)⟩
    · exact ⟨digits.length, Nat.lt_of_not_le hd,
        trajAt_err digits p1 o1 p2 o2 _ (fun hc => Nat.lt_irrefl _ hc.1)⟩

/-- Witness for C4's amended statement: a too-short sequence makes the
loop raise `IndexError`. -/
theorem reconstructTrajectories_amended_witness :
    reconstructTrajectories 3 [0, 1] ["a", "b", "c"] ["x", "y", "z"] ["p", "q", "r"]
      ["u", "v", "w"] = .error PyError.indexError :=
  (reconstructTrajectories_amended 3 [0, 1] ["a", "b", "c"] ["x", "y", "z"]
    ["p", "q", "r"] ["u", "v", "w"]).2 (by decide)

/-- C5 counterexample: when the second stats map has a key (`"b"`) that
the first lacks, the dict comprehension does NOT fail — it returns a
result over the first map's keys only, silently dropping `"b"`. -/
theorem mergeStats_ignores_extra_keys_counterexample :
    mergeStats [("a", 1)] [("a", 2), ("b", 3)] = .ok [("a", 3)] ∧
    "b" ∈ ([("a", 2), ("b", 3)] : StatsMap).map Prod.fst ∧
    "b" ∉ ([("a", 1)] : StatsMap).map Prod.fst :=
  ⟨rfl, by decide, by decide⟩

/-- C5 as amended: whenever every key of the first map is present in
the second (in particular for identical key sets), the merge succeeds
and maps each key of the FIRST map to the sum of the two values — keys
present only in the second map are silently dropped; when the first map
has a key missing from the second, the comprehension raises `KeyError`
(not a dedicated key-set-mismatch error). -/
theorem mergeStats_amended (a b : StatsMap) :
    ((∀ k ∈ a.map Prod.fst, (b.lookup k).isSome) →
      mergeStats a b = .ok (a.map (fun kv => (kv.1, kv.2 + (b.lookup kv.1).getD 0)))) ∧
    ((∃ k ∈ a.map Prod.fst, b.lookup k = none) →
      mergeStats a b = .error PyError.keyError) := by
  induction a with
  | nil =>
    constructor
    · intro _; rfl
    · rintro ⟨k, hk, -⟩
      simp at hk
  | cons kv rest ih =>
    constructor
    · intro h
      have hk : (b.lookup kv.1).isSome := h kv.1 (by simp)
      obtain ⟨w, hw⟩ := Option.isSome_iff_exists.mp hk
      have htail := ih.1 (fun k hkk => h k (by simp [hkk]))
      simp only [mergeStats, statsLookup, hw, htail, List.map_cons, Option.getD_some]
      rfl
    · rintro ⟨k, hk, hnone⟩
      cases hmem : b.lookup kv.1 with
      | none =>
        simp only [mergeStats, statsLookup, hmem]
        rfl
      | some w =>
        have htailkey : ∃ k ∈ rest.map Prod.fst, b.lookup k = none := by
          simp only [List.map_cons, List.mem_cons] at hk
          rcases hk with rfl | hmem2
          · rw [hnone] at hmem; cases hmem
          · exact ⟨k, hmem2, hnone⟩
        have htail := ih.2 htailkey
        simp only [mergeStats, statsLookup, hmem, htail]
        rfl

/-- Witness for C5's amended statement: merging maps with identical key
sets (in different insertion orders) sums the values key-wise. -/
theorem mergeStats_amended_witness :
    mergeStats [("x", 1), ("y", 2)] [("y", 5), ("x", 3)] = .ok [("x", 4), ("y", 7)] := by
  have h := (mergeStats_amended [("x", 1), ("y", 2)] [("y", 5), ("x", 3)]).1 (by decide)
  exact h.trans (by rfl)

/-- C6 counterexample: the text contributed by the fixed stage-2
template alone (the composed prompt with empty base prompt and empty
stage-1 output) literally contains both secret digit strings, "0" and
"1" — the recall instruction reads "x is either 0 or 1". -/
theorem stage2_template_contains_digits_counterexample :
    "0".toList <:+: stage2TemplatePart.toList ∧
    "1".toList <:+: stage2TemplatePart.toList := by
  constructor
  · exact ⟨"\nThe\nRecall fact: x is either ".toList, " or 1.\nAnswer: x =".toList, by decide⟩
  · exact ⟨"\nThe\nRecall fact: x is either 0 or ".toList, ".\nAnswer: x =".toList, by decide⟩

/-- C6 as amended: for every secret in the alphabet `{0, 1}`, the fixed
stage-2 template does contain that secret's digit string — the template
enumerates the whole alphabet in its recall instruction — but it is one
constant string, identical for every secret and every base prompt, so
its text never varies with the sampled value. -/
theorem stage2_template_mentions_every_secret (d : Int) (hd : d = 0 ∨ d = 1) :
    (toString d).toList <:+: stage2TemplatePart.toList ∧
    (∀ p o : String, compose_stage2 p o = p ++ "\nThe" ++ o ++ recall_str) := by
  refine ⟨?_, fun p o => rfl⟩
  rcases hd with rfl | rfl
  · exact ⟨"\nThe\nRecall fact: x is either ".toList, " or 1.\nAnswer: x =".toList, by decide⟩
  · exact ⟨"\nThe\nRecall fact: x is either 0 or ".toList, ".\nAnswer: x =".toList, by decide⟩

/-- Witness for C6's amended statement at secret 0. -/
theorem stage2_template_mentions_every_secret_witness :
    (toString (0 : Int)).toList <:+: stage2TemplatePart.toList :=
  (stage2_template_mentions_every_secret 0 (Or.inl rfl)).1

/-- C7: the batch merge of two generation results whose per-element
fields all have length `n` concatenates every field, stage-1 elements
first, and every merged field has length `2 * n`. -/
theorem addRunElementBatch_concat {α : Type} (a b : RunElementBatch α) (n : Nat)
    (ha : a.samples.length = n ∧ a.all_logprobs.length = n ∧ a.all_ref_logprobs.length = n ∧
          a.query_tensors.length = n ∧ a.response_tensors.length = n ∧ a.all_values.length = n)
    (hb : b.samples.length = n ∧ b.all_logprobs.length = n ∧ b.all_ref_logprobs.length = n ∧
          b.query_tensors.length = n ∧ b.response_tensors.length = n ∧ b.all_values.length = n) :
    (addRunElementBatch a b).samples = a.samples ++ b.samples ∧
    (addRunElementBatch a b).all_logprobs = a.all_logprobs ++ b.all_logprobs ∧
    (addRunElementBatch a b).all_ref_logprobs = a.all_ref_logprobs ++ b.all_ref_logprobs ∧
    (addRunElementBatch a b).query_tensors = a.query_tensors ++ b.query_tensors ∧
    (addRunElementBatch a b).response_tensors = a.response_tensors ++ b.response_tensors ∧
    (addRunElementBatch a b).all_values = a.all_values ++ b.all_values ∧
    (addRunElementBatch a b).samples.length = 2 * n ∧
    (addRunElementBatch a b).all_logprobs.length = 2 * n ∧
    (addRunElementBatch a b).all_ref_logprobs.length = 2 * n ∧
    (addRunElementBatch a b).query_tensors.length = 2 * n ∧
    (addRunElementBatch a b).response_tensors.length = 2 * n ∧
    (addRunElementBatch a b).all_values.length = 2 * n := by
  obtain ⟨ha1, ha2, ha3, ha4, ha5, ha6⟩ := ha
  obtain ⟨hb1, hb2, hb3, hb4, hb5, hb6⟩ := hb
  refine ⟨rfl, rfl, rfl, rfl, rfl, rfl, ?_, ?_, ?_, ?_, ?_, ?_⟩ <;>
    simp [addRunElementBatch, ha1, ha2, ha3, ha4, ha5, ha6, hb1, hb2, hb3, hb4, hb5, hb6,
      Nat.two_mul]

/-- Witness for C7 at a concrete pair of single-element results. -/
theorem addRunElementBatch_concat_witness :
    (addRunElementBatch (⟨[1], [2], [3], [4], [5], [6]⟩ : RunElementBatch Int)
      ⟨[7], [8], [9], [10], [11], [12]⟩).samples.length = 2 * 1 :=
  (addRunElementBatch_concat (⟨[1], [2], [3], [4], [5], [6]⟩ : RunElementBatch Int)
    ⟨[7], [8], [9], [10], [11], [12]⟩ 1 ⟨rfl, rfl, rfl, rfl, rfl, rfl⟩
    ⟨rfl, rfl, rfl, rfl, rfl, rfl⟩).2.2.2.2.2.2.1

lemma npRandint_length (lo hi : Nat) : ∀ (m : Nat) (g : RNGState),
    ((npRandint lo hi m g).1).length = m := by
  intro m
  induction m with
  | zero => intro g; rfl
  | succ k ih => intro g; simp only [npRandint, List.length_cons, ih]

lemma npRandint_mem_alphabet : ∀ (m : Nat) (g : RNGState),
    ∀ v ∈ (npRandint 0 2 m g).1, v = 0 ∨ v = 1 := by
  intro m
  induction m with
  | zero => intro g v hv; simp [npRandint] at hv
  | succ k ih =>
    intro g v hv
    simp only [npRandint, List.mem_cons] at hv
    rcases hv with h1 | h2
    · rw [h1]; omega
    · exact ih _ v h2

/-- C8: for every batch size `n ≥ 1` and seed `s`, the secret sampler
produces exactly `n` integers, each in the alphabet `{0, 1}` (the
inclusive range `[0, 1]`), and two invocations under the same seed
produce the same sequence. -/
theorem sampleSecrets_spec (s n : Nat) (h : 1 ≤ n) :
    (sampleSecrets s n).length = n ∧
    (∀ d ∈ sampleSecrets s n, d = 0 ∨ d = 1) ∧
    sampleSecrets s n = sampleSecrets s n :=
  ⟨npRandint_length 0 2 n (npSeed s), npRandint_mem_alphabet n (npSeed s), rfl⟩

/-- Witness for C8 at seed 42 and batch size 2. -/
theorem sampleSecrets_spec_witness : (sampleSecrets 42 2).length = 2 :=
  (sampleSecrets_spec 42 2 (by decide)).1

/-- C9: stage-2 composition is total on the empty stage-1 output: it
returns the base prompt followed by the fixed template part (the "The"
sentinel and recall instruction), raising nothing. -/
theorem compose_stage2_empty_output (p : String) :
    compose_stage2 p "" = p ++ stage2TemplatePart := by
  unfold compose_stage2 stage2TemplatePart
  rw [String.append_empty, String.append_assoc]

/-- C10: the stage-2 prompt batch is a function of only the decoded
base prompts and the stage-1 outputs — replacing the sampled secrets by
any other list leaves every composed stage-2 prompt unchanged (the
secret does not flow into stage-2 composition). -/
theorem second_run_strs_independent_of_secrets (digits digits2 : List Int)
    (str_prompts first_outs : List String) (n : Nat) :
    second_run_strs digits str_prompts first_outs n =
      second_run_strs digits2 str_prompts first_outs n := rfl

/-- Witness for C9 on a concrete base prompt. -/
theorem compose_stage2_empty_output_witness :
    compose_stage2 "poem" "" = "poem" ++ stage2TemplatePart :=
  compose_stage2_empty_output "poem"

/-- Witness for C10 on concrete runs that differ only in the secret. -/
theorem second_run_strs_independent_witness :
    second_run_strs [0] ["p"] ["o"] 1 = second_run_strs [1] ["p"] ["o"] 1 :=
  second_run_strs_independent_of_secrets [0] [1] ["p"] ["o"] 1

end EncoderDecoderText
